import Mathlib

/-!
Verification of the LLM gateway's provider adapter layer, streaming
normalization engine and stream-forwarding bridge.

The Go source is embedded shallowly: the proto message types become plain
structures, each adapter's SSE processing loop becomes a structurally
recursive function over the list of demultiplexed frames (JSON parsing is
abstracted into a sum: a payload either parses into the vendor shape, is
malformed, or is the terminal sentinel), channel sends become list appends,
and the goroutine/channel machinery is made explicit where a claim needs it
(a cancellation step index, or a receive budget for unbuffered sends).
Proto int32 fields are modelled as Int; the token counts involved never
approach the 32-bit range, so no wrap-around modelling is needed.
-/

namespace LLMService

/-! ## Proto data model (proto/llm.proto)

`UsageInfo` in the generated proto has exactly three fields:
prompt_tokens, completion_tokens, total_tokens. -/

structure UsageInfo where
  promptTokens : Int
  completionTokens : Int
  totalTokens : Int
deriving DecidableEq, Repr

/-- Mirror of the proto `ResponseType` enum. -/
inductive ResponseType where
  | unspecified
  | content
  | finishReason
  | usage
deriving DecidableEq, Repr

/-- Mirror of `pb.LLMStreamResponse`: a tagged product, exactly as the
generated Go struct. Fields not relevant to the tag are zero-valued. -/
structure LLMStreamResponse where
  type : ResponseType
  content : String
  finishReason : String
  usage : Option UsageInfo
deriving DecidableEq, Repr

/-- Go `&pb.LLMStreamResponse{Type: TYPE_CONTENT, Content: chunk}`. -/
def contentEvent (text : String) : LLMStreamResponse :=
  ⟨ResponseType.content, text, "", none⟩

/-- Go `&pb.LLMStreamResponse{Type: TYPE_FINISH_REASON, FinishReason: r}`. -/
def finishEvent (reason : String) : LLMStreamResponse :=
  ⟨ResponseType.finishReason, "", reason, none⟩

/-- Go `&pb.LLMStreamResponse{Type: TYPE_USAGE, Usage: u}`. -/
def usageEvent (u : UsageInfo) : LLMStreamResponse :=
  ⟨ResponseType.usage, "", "", some u⟩

/-- Mirror of `pb.ChatMessage`. -/
structure ChatMessage where
  role : String
  content : String
deriving DecidableEq, Repr

/-- Mirror of `pb.CacheControl`. -/
structure CacheControl where
  useCache : Bool
  ttl : Int
deriving DecidableEq, Repr

/-- Mirror of `pb.LLMRequest`. The float32 sampling parameters are modelled
as rationals; the adapters only zero-test them and pass them through. -/
structure LLMRequest where
  provider : String
  model : String
  messages : List ChatMessage
  temperature : Rat
  maxTokens : Int
  topP : Rat
  topK : Int
  cacheControl : Option CacheControl
deriving DecidableEq, Repr

/-- Mirror of `pb.LLMResponse` (the `Usage` field is a nilable pointer). -/
structure LLMResponse where
  content : String
  usage : Option UsageInfo
deriving DecidableEq, Repr

/-- Error taxonomy of the adapters. Go wraps these with `fmt.Errorf`; the
constructors retain exactly the data interpolated into each message. -/
inductive ProviderError where
  | marshalRequest (msg : String)
  | createRequest (msg : String)
  | sendRequest (msg : String)
  | readBody (msg : String)
  | httpStatus (status : Int) (respBody : String)
  | parseSSE (payload : String)
  | parseResponse (respBody : String)
  | noChoices
  | readStream (msg : String)
deriving DecidableEq, Repr

/-! ## OpenRouter adapter (internal/provider/openrouter/provider.go) -/

/-- Nested `choices[0].delta` of `streamResponseBody`. -/
structure ORDelta where
  role : String
  content : String
deriving DecidableEq, Repr

/-- One element of `streamResponseBody.Choices`. -/
structure ORChoice where
  delta : ORDelta
  finishReason : String
deriving DecidableEq, Repr

/-- The `usage` object of the OpenRouter wire format (all three fields come
from the vendor; absent JSON fields unmarshal to zero). -/
structure ORUsage where
  promptTokens : Int
  completionTokens : Int
  totalTokens : Int
deriving DecidableEq, Repr

/-- Mirror of `streamResponseBody`: one parsed SSE chunk. -/
structure ORStreamBody where
  choices : List ORChoice
  usage : Option ORUsage
deriving DecidableEq, Repr

/-- One demultiplexed `data:` payload as seen by `streamProcessor.process`,
with `json.Unmarshal` abstracted: the payload is the `[DONE]` sentinel,
unmarshals into `streamResponseBody`, or is malformed. `readErr` is an
error surfaced by the reading goroutine on its internal error channel. -/
inductive ORFrameData where
  | done
  | body (b : ORStreamBody)
  | malformed (payload : String)
  | readErr (msg : String)
deriving DecidableEq, Repr

/-- Conversion `*pb.UsageInfo` from the captured OpenRouter usage struct. -/
def usageFromOR (u : ORUsage) : UsageInfo :=
  ⟨u.promptTokens, u.completionTokens, u.totalTokens⟩

/-- Events sent for `streamResp.Choices[0]` in one iteration of
`streamProcessor.process`: the finish-reason send precedes the content
send, and an empty chunk sends nothing. -/
def orChoiceEvents (c : ORChoice) : List LLMStreamResponse :=
  (if c.finishReason ≠ "" then [finishEvent c.finishReason] else []) ++
    (if c.delta.content ≠ "" then [contentEvent c.delta.content] else [])

/-- Events contributed by one parsed chunk: frames with no choices are
skipped entirely (the `len(streamResp.Choices) == 0` continue). -/
def orFrameEvents (b : ORStreamBody) : List LLMStreamResponse :=
  match b.choices with
  | [] => []
  | c :: _ => orChoiceEvents c

/-- The processing loop of `streamProcessor.process`. The accumulator is
the captured `usage` pointer (flushed only at the `[DONE]` sentinel); a
malformed payload or a read error terminates the stream with the
corresponding error; end of input without `[DONE]` terminates silently. -/
def orProcess : List ORFrameData → Option ORUsage →
    List LLMStreamResponse × Option ProviderError
  | [], _ => ([], none)
  | ORFrameData.done :: _, u =>
      ((match u with
        | some v => [usageEvent (usageFromOR v)]
        | none => []), none)
  | ORFrameData.malformed p :: _, _ => ([], some (ProviderError.parseSSE p))
  | ORFrameData.readErr m :: _, _ => ([], some (ProviderError.readStream m))
  | ORFrameData.body b :: rest, u =>
      match b.choices with
      | [] => orProcess rest u
      | c :: _ =>
          let u' := match b.usage with
            | some v => some v
            | none => u
          let tail := orProcess rest u'
          (orChoiceEvents c ++ tail.1, tail.2)

/-- The same loop under cancellation: `ctx.Done()` is selected at the start
of every iteration, so a context canceled after `k` iterations lets exactly
the first `k` payloads be handled and then returns, emitting nothing more. -/
def orProcessC : Nat → List ORFrameData → Option ORUsage →
    List LLMStreamResponse × Option ProviderError
  | 0, _, _ => ([], none)
  | _ + 1, [], _ => ([], none)
  | _ + 1, ORFrameData.done :: _, u =>
      ((match u with
        | some v => [usageEvent (usageFromOR v)]
        | none => []), none)
  | _ + 1, ORFrameData.malformed p :: _, _ => ([], some (ProviderError.parseSSE p))
  | _ + 1, ORFrameData.readErr m :: _, _ => ([], some (ProviderError.readStream m))
  | k + 1, ORFrameData.body b :: rest, u =>
      match b.choices with
      | [] => orProcessC k rest u
      | c :: _ =>
          let u' := match b.usage with
            | some v => some v
            | none => u
          let tail := orProcessC k rest u'
          (orChoiceEvents c ++ tail.1, tail.2)

/-- Initial HTTP response of a streaming invocation: status, body (read
only on the error path) and the stream of demultiplexed payloads. -/
structure HTTPStreamResponse (φ : Type) where
  statusCode : Int
  respBody : String
  frames : List φ
deriving DecidableEq, Repr

/-- Outcome of `client.Do`: a transport error or a response. -/
inductive HTTPAttempt (φ : Type) where
  | transportError (msg : String)
  | response (r : HTTPStreamResponse φ)
deriving DecidableEq, Repr

/-- Observable outcome of one `InvokeStream` producer: the events delivered
on the response channel, the error delivered on the error channel (buffer 1,
at most one is ever sent), and whether each channel was closed. -/
structure StreamOutcome where
  events : List LLMStreamResponse
  error : Option ProviderError
  responseClosed : Bool
  errorClosed : Bool
deriving DecidableEq, Repr

/-- The OpenRouter `InvokeStream` producer goroutine. Its first two
statements are `defer close(responseChan); defer close(errorChan)`, and
every branch of the body returns normally (the response channel is buffered
to 1000 and `sendResponse` selects on `ctx.Done()`, so no send blocks
forever), hence both channels are closed on every path. A non-200 status
reads the body and sends a single error before any event. `cancelAt` is
the number of processing-loop iterations that run before the context is
observed canceled (`none` = never canceled). -/
def orInvokeStream (up : HTTPAttempt ORFrameData) (cancelAt : Option Nat) :
    StreamOutcome :=
  match up with
  | HTTPAttempt.transportError m =>
      ⟨[], some (ProviderError.sendRequest m), true, true⟩
  | HTTPAttempt.response r =>
      if r.statusCode ≠ 200 then
        ⟨[], some (ProviderError.httpStatus r.statusCode r.respBody), true, true⟩
      else
        let run := match cancelAt with
          | none => orProcess r.frames none
          | some k => orProcessC k r.frames none
        ⟨run.1, run.2, true, true⟩

/-- The `context.WithTimeout(ctx, 60*time.Second)` created inside the
OpenRouter `InvokeStream` goroutine, in seconds. -/
def orStreamTimeoutSeconds : Nat := 60

/-- The `http.Client{Timeout: 60 * time.Second}` built for the streaming
request inside the OpenRouter `InvokeStream` goroutine, in seconds. -/
def orStreamClientTimeoutSeconds : Nat := 60

/-- Go `context.WithTimeout` semantics: the child context's deadline is the
parent's deadline capped at `now + timeout`. -/
def withTimeoutDeadline (parentDeadline : Option Nat) (now timeoutSecs : Nat) : Nat :=
  match parentDeadline with
  | none => now + timeoutSecs
  | some d => min d (now + timeoutSecs)

/-- Deadline under which the whole OpenRouter streaming invocation runs,
for a caller context with deadline `callerDeadline` at call time `now`. -/
def orStreamDeadline (callerDeadline : Option Nat) (now : Nat) : Nat :=
  withTimeoutDeadline callerDeadline now orStreamTimeoutSeconds

/-- OpenRouter wire-format chat message. -/
structure ORChatMessage where
  role : String
  content : String
deriving DecidableEq, Repr

/-- Message conversion performed at the top of both OpenRouter operations. -/
def orChatMessages (req : LLMRequest) : List ORChatMessage :=
  req.messages.map (fun m => ⟨m.role, m.content⟩)

/-- One element of the synchronous `responseBody.Choices`. -/
structure ORResponseChoice where
  messageRole : String
  messageContent : String
  finishReason : String
deriving DecidableEq, Repr

/-- Mirror of the synchronous `responseBody` (the `usage` object is a plain
struct: absent JSON fields unmarshal to zero). -/
structure ORResponseBody where
  choices : List ORResponseChoice
  usage : ORUsage
deriving DecidableEq, Repr

/-- Result of the HTTP round trip of a synchronous `Invoke`, with
`json.Unmarshal` abstracted into the `malformedBody` / `ok` split. -/
inductive SyncUpstream (β : Type) where
  | transportError (msg : String)
  | readFailed (msg : String)
  | httpError (status : Int) (respBody : String)
  | malformedBody (respBody : String)
  | ok (parsed : β)
deriving DecidableEq, Repr

/-- The OpenRouter synchronous `Invoke`, from the HTTP outcome on: the
response usage fields, including `total_tokens`, are copied from the vendor
verbatim, never recomputed. -/
def orInvoke (up : SyncUpstream ORResponseBody) : Except ProviderError LLMResponse :=
  match up with
  | SyncUpstream.transportError m => Except.error (ProviderError.sendRequest m)
  | SyncUpstream.readFailed m => Except.error (ProviderError.readBody m)
  | SyncUpstream.httpError s b => Except.error (ProviderError.httpStatus s b)
  | SyncUpstream.malformedBody b => Except.error (ProviderError.parseResponse b)
  | SyncUpstream.ok r =>
      match r.choices with
      | [] => Except.error ProviderError.noChoices
      | c :: _ =>
          Except.ok ⟨c.messageContent,
            some ⟨r.usage.promptTokens, r.usage.completionTokens, r.usage.totalTokens⟩⟩

/-! ## Anthropic adapter (internal/provider/anthropic/provider.go) -/

/-- Mirror of `contentBlock`. -/
structure AnthContentBlock where
  type : String
  text : String
deriving DecidableEq, Repr

/-- Mirror of the `Delta` member of `streamResponseBody`. The stream loop
reads only `Type` and `Text`; `TextDelta`, `StopReason` and `StopSequence`
are never consulted and are omitted. -/
structure AnthDelta where
  type : String
  text : String
deriving DecidableEq, Repr

/-- Usage object of the Anthropic wire format. Only `InputTokens` and
`OutputTokens` are read by the stream loop; the cache token fields of the
vendor schema are never consulted there and are omitted. -/
structure AnthUsage where
  inputTokens : Int
  outputTokens : Int
deriving DecidableEq, Repr

/-- Mirror of the Anthropic `streamResponseBody`. `messageUsageInput`
flattens the only member of the nested `Message` object the loop reads,
`streamResp.Message.Usage.InputTokens`. -/
structure AnthBody where
  type : String
  content : List AnthContentBlock
  delta : AnthDelta
  messageUsageInput : Int
  usage : Option AnthUsage
deriving DecidableEq, Repr

/-- One demultiplexed `data:` payload seen by the Anthropic stream loop.
`readErr` models a `scanner.Err()` ending the scan. -/
inductive AnthFrameData where
  | done
  | body (b : AnthBody)
  | malformed (payload : String)
  | readErr (msg : String)
deriving DecidableEq, Repr

/-- One iteration of the Anthropic stream loop for a parsed payload,
returning the events sent and the updated `usage` snapshot. It mirrors
the Go statement sequence: the `message_start` / `message_delta` if-else
ladder (a `message_delta` with positive output tokens fabricates
`PromptTokens: 1024` when no snapshot exists, then emits the snapshot),
then the top-level content blocks (skipping empty text), then the
`content_block_delta` text delta (with no emptiness check). -/
def anthFrameStep (b : AnthBody) (usage : Option UsageInfo) :
    List LLMStreamResponse × Option UsageInfo :=
  let usagePart : List LLMStreamResponse × Option UsageInfo :=
    if b.type = "message_start" ∧ 0 < b.messageUsageInput then
      ([], some ⟨b.messageUsageInput, 0, 0⟩)
    else
      match b.usage with
      | some u =>
          if b.type = "message_delta" ∧ 0 < u.outputTokens then
            let base : UsageInfo := match usage with
              | none => ⟨1024, 0, 0⟩
              | some v => v
            let updated : UsageInfo :=
              ⟨base.promptTokens, u.outputTokens, base.promptTokens + u.outputTokens⟩
            ([usageEvent updated], some updated)
          else ([], usage)
      | none => ([], usage)
  let contentPart : List LLMStreamResponse :=
    (b.content.filter (fun bl => bl.type = "text" ∧ bl.text ≠ "")).map
      (fun bl => contentEvent bl.text)
  let deltaPart : List LLMStreamResponse :=
    if b.type = "content_block_delta" ∧ b.delta.type = "text_delta" then
      [contentEvent b.delta.text]
    else []
  (usagePart.1 ++ contentPart ++ deltaPart, usagePart.2)

/-- The Anthropic stream loop over the demultiplexed payloads. The
`[DONE]` sentinel re-emits the current snapshot (if any) and returns;
scanner exhaustion without the sentinel returns silently. -/
def anthProcess : List AnthFrameData → Option UsageInfo →
    List LLMStreamResponse × Option ProviderError
  | [], _ => ([], none)
  | AnthFrameData.done :: _, usage =>
      ((match usage with
        | some u => [usageEvent u]
        | none => []), none)
  | AnthFrameData.malformed p :: _, _ => ([], some (ProviderError.parseSSE p))
  | AnthFrameData.readErr m :: _, _ => ([], some (ProviderError.readStream m))
  | AnthFrameData.body b :: rest, usage =>
      let step := anthFrameStep b usage
      let tail := anthProcess rest step.2
      (step.1 ++ tail.1, tail.2)

/-- Sequential plain sends on the Anthropic response channel. The channel
is unbuffered (`make(chan *pb.LLMStreamResponse)`) and the sends do not
select on `ctx.Done()`, so each send completes only if the consumer still
performs a receive; `budget` counts the receives the bridge will still do
before its context is canceled. Returns the delivered events and the
remaining budget, or `none` if a send blocked forever. -/
def anthSendAll (evs : List LLMStreamResponse) (budget : Nat) :
    List LLMStreamResponse × Option Nat :=
  match evs, budget with
  | [], b => ([], some b)
  | _ :: _, 0 => ([], none)
  | e :: rest, b + 1 =>
      let r := anthSendAll rest b
      (e :: r.1, r.2)

/-- The Anthropic stream loop with the receive budget threaded through.
The last component is true when the producer goroutine reached a `return`
(so its deferred `close` calls ran) and false when it is blocked forever
in a channel send. Error sends go to the 1-slot buffered error channel
and never block. -/
def anthProcessB : List AnthFrameData → Option UsageInfo → Nat →
    List LLMStreamResponse × Option ProviderError × Bool
  | [], _, _ => ([], none, true)
  | AnthFrameData.done :: _, usage, budget =>
      let flush : List LLMStreamResponse := match usage with
        | some u => [usageEvent u]
        | none => []
      let s := anthSendAll flush budget
      (s.1, none, s.2.isSome)
  | AnthFrameData.malformed p :: _, _, _ => ([], some (ProviderError.parseSSE p), true)
  | AnthFrameData.readErr m :: _, _, _ => ([], some (ProviderError.readStream m), true)
  | AnthFrameData.body b :: rest, usage, budget =>
      let step := anthFrameStep b usage
      let s := anthSendAll step.1 budget
      match s.2 with
      | none => (s.1, none, false)
      | some budget' =>
          let tail := anthProcessB rest step.2 budget'
          (s.1 ++ tail.1, tail.2.1, tail.2.2)

/-- The Anthropic `InvokeStream` producer goroutine composed with a bridge
that performs `budget` receives before its context is canceled. Its
deferred `close(responseChan)` / `close(errorChan)` run only when the body
returns; a send that blocks forever leaves both channels unclosed. -/
def anthInvokeStreamB (up : HTTPAttempt AnthFrameData) (budget : Nat) :
    StreamOutcome :=
  match up with
  | HTTPAttempt.transportError m =>
      ⟨[], some (ProviderError.sendRequest m), true, true⟩
  | HTTPAttempt.response r =>
      if r.statusCode ≠ 200 then
        ⟨[], some (ProviderError.httpStatus r.statusCode r.respBody), true, true⟩
      else
        let run := anthProcessB r.frames none budget
        ⟨run.1, run.2.1, run.2.2, run.2.2⟩

/-- Mirror of the Anthropic synchronous `responseBody`: the content blocks
and the usage counts the conversion reads (the cache token fields of the
vendor schema are not read by the conversion and are omitted). -/
structure AnthResponseBody where
  content : List AnthContentBlock
  usageInput : Int
  usageOutput : Int
deriving DecidableEq, Repr

/-- The Anthropic synchronous `Invoke`, from the HTTP outcome on: content
is the concatenation of the text-typed blocks, and `TotalTokens` is
computed as `InputTokens + OutputTokens`. -/
def anthInvoke (up : SyncUpstream AnthResponseBody) : Except ProviderError LLMResponse :=
  match up with
  | SyncUpstream.transportError m => Except.error (ProviderError.sendRequest m)
  | SyncUpstream.readFailed m => Except.error (ProviderError.readBody m)
  | SyncUpstream.httpError s b => Except.error (ProviderError.httpStatus s b)
  | SyncUpstream.malformedBody b => Except.error (ProviderError.parseResponse b)
  | SyncUpstream.ok r =>
      Except.ok
        ⟨r.content.foldl (fun acc bl => if bl.type = "text" then acc ++ bl.text else acc) "",
         some ⟨r.usageInput, r.usageOutput, r.usageInput + r.usageOutput⟩⟩

/-- A `message_start` payload reporting `p` input tokens. -/
def msgStartBody (p : Int) : AnthBody := ⟨"message_start", [], ⟨"", ""⟩, p, none⟩

/-- A `message_delta` payload reporting `o` cumulative output tokens. -/
def msgDeltaBody (o : Int) : AnthBody := ⟨"message_delta", [], ⟨"", ""⟩, 0, some ⟨0, o⟩⟩

/-- The `message_start` frame as a stream payload. -/
def msgStartFrame (p : Int) : AnthFrameData := AnthFrameData.body (msgStartBody p)

/-- The `message_delta` frame as a stream payload. -/
def msgDeltaFrame (o : Int) : AnthFrameData := AnthFrameData.body (msgDeltaBody o)

/-- Final usage snapshot after a run of `message_delta` frames starting
from snapshot `u` (each delta keeps the prompt count and overwrites the
completion and total counts). -/
def anthFinal (u : UsageInfo) : List Int → UsageInfo
  | [] => u
  | o :: rest => anthFinal ⟨u.promptTokens, o, u.promptTokens + o⟩ rest

/-! ## LLM server and streaming bridge (internal/server/llm_server.go) -/

/-- One observation made by the select loop of `LLMServer.InvokeStream`:
an event received from the response channel (with the outcome of the
subsequent `stream.Send`), the response channel found closed, an error
received from the error channel, the error channel found closed, or the
outbound stream's context found canceled. -/
inductive BridgeInput where
  | item (r : LLMStreamResponse) (sendOk : Bool)
  | respClosed
  | errItem (e : ProviderError)
  | errClosed
  | ctxDone
deriving DecidableEq, Repr

/-- Return value of the bridge loop, mirroring the Go returns: nil on a
closed channel, the wrapped provider error, the wrapped send error, or the
context's error. -/
inductive BridgeResult where
  | success
  | providerFailure (e : ProviderError)
  | sendFailure
  | canceled
deriving DecidableEq, Repr

/-- The select loop of `LLMServer.InvokeStream` over a resolved sequence
of observations: forward each received event immediately (stopping on a
failed `Send`), return nil when either channel is found closed, return the
provider error when one is received, return the context error on
cancellation. `none` marks an exhausted (incomplete) observation trace. -/
def bridgeRun : List BridgeInput → List LLMStreamResponse × Option BridgeResult
  | [] => ([], none)
  | BridgeInput.item r sendOk :: rest =>
      if sendOk then
        let tail := bridgeRun rest
        (r :: tail.1, tail.2)
      else ([], some BridgeResult.sendFailure)
  | BridgeInput.respClosed :: _ => ([], some BridgeResult.success)
  | BridgeInput.errItem e :: _ => ([], some (BridgeResult.providerFailure e))
  | BridgeInput.errClosed :: _ => ([], some BridgeResult.success)
  | BridgeInput.ctxDone :: _ => ([], some BridgeResult.canceled)

/-- The terminal phase of the bridge once the producer has finished
successfully: the buffered response channel still holds `q`, and both
channels are closed (the deferred closes run error channel first). Each
loop iteration has two ready cases, the pending event and the closed error
channel; `oracle` resolves Go's uniformly random select choice, `true`
picking the closed error channel (which returns nil at once, dropping the
rest of the buffer) and `false` picking the event. An exhausted oracle
keeps picking events. -/
def bridgeDrain : List LLMStreamResponse → List Bool → List LLMStreamResponse
  | [], _ => []
  | e :: rest, [] => e :: bridgeDrain rest []
  | e :: rest, pick :: oracle =>
      if pick then [] else e :: bridgeDrain rest oracle

/-- Error returned by `LLMServer.InvokeStream` to the gRPC layer. -/
inductive ServerStreamError where
  | unsupportedProvider (msg : String)
  | providerFailure (e : ProviderError)
  | sendFailed
  | canceled
deriving DecidableEq, Repr

/-- Mapping of the bridge loop's return onto the server stream error. -/
def mapBridgeResult : Option BridgeResult → Option ServerStreamError
  | none => none
  | some BridgeResult.success => none
  | some (BridgeResult.providerFailure e) => some (ServerStreamError.providerFailure e)
  | some BridgeResult.sendFailure => some ServerStreamError.sendFailed
  | some BridgeResult.canceled => some ServerStreamError.canceled

/-- Observable outcome of a unary `LLMServer.Invoke`: the returned
response or error, and the number of upstream network calls performed. -/
structure InvokeOutcome where
  response : Option LLMResponse
  error : Option String
  networkCalls : Nat

/-- A registered adapter, abstracted to its two operations. Each records
the number of network calls its execution performs. -/
structure ProviderModel where
  invoke : LLMRequest → InvokeOutcome
  stream : LLMRequest → List BridgeInput × Nat

/-- Mirror of `LLMServer.getProvider`: an exact-match map lookup; a miss
yields the `unsupported provider` error. -/
def getProvider (providers : List (String × ProviderModel)) (name : String) :
    Except String ProviderModel :=
  match providers.lookup name with
  | some p => Except.ok p
  | none => Except.error ("unsupported provider: " ++ name)

/-- Mirror of `LLMServer.Invoke`: the registry lookup runs first, and a
miss returns its error before the provider (and hence any network call)
is touched. -/
def serverInvoke (providers : List (String × ProviderModel)) (req : LLMRequest) :
    InvokeOutcome :=
  match getProvider providers req.provider with
  | Except.error e => ⟨none, some e, 0⟩
  | Except.ok p => p.invoke req

/-- Mirror of `LLMServer.InvokeStream`: the registry lookup runs first and
a miss returns before the provider is invoked; otherwise the bridge loop
forwards the provider's stream. -/
def serverInvokeStream (providers : List (String × ProviderModel)) (req : LLMRequest) :
    List LLMStreamResponse × Option ServerStreamError × Nat :=
  match getProvider providers req.provider with
  | Except.error e => ([], some (ServerStreamError.unsupportedProvider e), 0)
  | Except.ok p =>
      let run := p.stream req
      let fwd := bridgeRun run.1
      (fwd.1, mapBridgeResult fwd.2, run.2)

/-- A concrete registered adapter used to instantiate the registry
theorems (any invocation performs one network call). -/
def stubProvider : ProviderModel :=
  ⟨fun _ => ⟨none, none, 1⟩, fun _ => ([BridgeInput.respClosed], 1)⟩

/-- A concrete request addressed to an unregistered provider id. -/
def reqUnknown : LLMRequest := ⟨"unknown", "", [], 0, 0, 0, 0, none⟩

/-- The scripted upstream of the ordering property: three SSE chunks
carrying delta `"a"`, delta `"b"`, and finish reason `"stop"`. -/
def orderFrames : List ORFrameData :=
  [ORFrameData.body ⟨[⟨⟨"", "a"⟩, ""⟩], none⟩,
   ORFrameData.body ⟨[⟨⟨"", "b"⟩, ""⟩], none⟩,
   ORFrameData.body ⟨[⟨⟨"", ""⟩, "stop"⟩], none⟩]

/-! ## Predicates formalising the claims' vocabulary -/

/-- Usage snapshots carried by the `Usage` events of a stream, in order. -/
def usageSnapshots (evs : List LLMStreamResponse) : List UsageInfo :=
  evs.filterMap (fun e => if e.type = ResponseType.usage then e.usage else none)

/-- Texts carried by the `Content` events of a stream, in order. -/
def contentTexts (evs : List LLMStreamResponse) : List String :=
  evs.filterMap (fun e => if e.type = ResponseType.content then some e.content else none)

/-- The claimed non-regression between an earlier and a later usage
report: any field reported non-zero earlier is not smaller later. -/
def usageNoRegress (a b : UsageInfo) : Prop :=
  (a.promptTokens ≠ 0 → a.promptTokens ≤ b.promptTokens) ∧
    (a.completionTokens ≠ 0 → a.completionTokens ≤ b.completionTokens) ∧
    (a.totalTokens ≠ 0 → a.totalTokens ≤ b.totalTokens)

instance : DecidableRel usageNoRegress :=
  fun _ _ => by unfold usageNoRegress; infer_instance

/-- Field-wise order on usage snapshots. -/
def usageLE (a b : UsageInfo) : Prop :=
  a.promptTokens ≤ b.promptTokens ∧
    a.completionTokens ≤ b.completionTokens ∧
    a.totalTokens ≤ b.totalTokens

instance : IsTrans UsageInfo usageLE :=
  ⟨fun _ _ _ hab hbc =>
    ⟨hab.1.trans hbc.1, hab.2.1.trans hbc.2.1, hab.2.2.trans hbc.2.2⟩⟩

/-! ## Helper lemmas -/

theorem lookup_eq_none_of_not_mem {ps : List (String × ProviderModel)} {name : String}
    (h : name ∉ ps.map Prod.fst) : ps.lookup name = none := by
  induction ps with
  | nil => rfl
  | cons kv rest ih =>
      simp only [List.map_cons, List.mem_cons, not_or] at h
      have hne : (name == kv.1) = false := beq_eq_false_iff_ne.mpr h.1
      cases kv with
      | mk k v => simpa [List.lookup, hne] using ih h.2

theorem getProvider_ok_iff (ps : List (String × ProviderModel)) (name : String) :
    (∃ p, getProvider ps name = Except.ok p) ↔ name ∈ ps.map Prod.fst := by
  induction ps with
  | nil => simp [getProvider, List.lookup]
  | cons kv rest ih =>
      cases kv with
      | mk k v =>
          by_cases hk : name = k
          · subst hk
            simp [getProvider, List.lookup]
          · have hne : (name == k) = false := beq_eq_false_iff_ne.mpr hk
            simpa [getProvider, List.lookup, hne, hk] using ih

theorem bridgeRun_items (es : List LLMStreamResponse) :
    bridgeRun (es.map (fun e => BridgeInput.item e true) ++ [BridgeInput.respClosed])
      = (es, some BridgeResult.success) := by
  induction es with
  | nil => rfl
  | cons e rest ih => simp [bridgeRun, ih]

theorem bridgeDrain_take (q : List LLMStreamResponse) (oracle : List Bool) :
    ∃ k, bridgeDrain q oracle = q.take k := by
  induction q generalizing oracle with
  | nil => exact ⟨0, rfl⟩
  | cons e rest ih =>
      cases oracle with
      | nil =>
          obtain ⟨k, hk⟩ := ih []
          exact ⟨k + 1, by simp [bridgeDrain, hk]⟩
      | cons pick obs =>
          cases pick with
          | true => exact ⟨0, by simp [bridgeDrain]⟩
          | false =>
              obtain ⟨k, hk⟩ := ih obs
              exact ⟨k + 1, by simp [bridgeDrain, hk]⟩

theorem bridgeDrain_nil_oracle (q : List LLMStreamResponse) :
    bridgeDrain q [] = q := by
  induction q with
  | nil => rfl
  | cons e rest ih => simp [bridgeDrain, ih]

theorem orProcess_map_body (bs : List ORStreamBody) (u : Option ORUsage) :
    (orProcess (bs.map ORFrameData.body) u).1 = bs.flatMap orFrameEvents := by
  induction bs generalizing u with
  | nil => simp [orProcess]
  | cons b rest ih =>
      cases b with
      | mk choices busage =>
          cases choices with
          | nil => simpa [orProcess, orFrameEvents] using ih u
          | cons c cs => simp [orProcess, orFrameEvents, ih]

theorem usageSnapshots_append (a b : List LLMStreamResponse) :
    usageSnapshots (a ++ b) = usageSnapshots a ++ usageSnapshots b := by
  simp [usageSnapshots]

theorem usageSnapshots_usageEvent_map (us : List UsageInfo) :
    usageSnapshots (us.map usageEvent) = us := by
  induction us with
  | nil => rfl
  | cons u rest ih => simp [usageSnapshots, usageEvent] at ih ⊢; exact ih

theorem usageSnapshots_orChoiceEvents (c : ORChoice) :
    usageSnapshots (orChoiceEvents c) = [] := by
  unfold orChoiceEvents usageSnapshots
  split_ifs <;> simp [finishEvent, contentEvent]

theorem usageSnapshots_orProcess_len (frames : List ORFrameData) (u : Option ORUsage) :
    (usageSnapshots (orProcess frames u).1).length ≤ 1 := by
  induction frames generalizing u with
  | nil => simp [orProcess, usageSnapshots]
  | cons f rest ih =>
      cases f with
      | done => cases u <;> simp [orProcess, usageSnapshots, usageEvent, usageFromOR]
      | malformed p => simp [orProcess, usageSnapshots]
      | readErr m => simp [orProcess, usageSnapshots]
      | body b =>
          cases b with
          | mk choices busage =>
              cases choices with
              | nil => simpa [orProcess] using ih u
              | cons c cs =>
                  simpa [orProcess, usageSnapshots_append, usageSnapshots_orChoiceEvents]
                    using ih (match busage with | some v => some v | none => u)

theorem pairwise_of_len_le_one {α : Type} {R : α → α → Prop} :
    ∀ (l : List α), l.length ≤ 1 → l.Pairwise R
  | [], _ => List.Pairwise.nil
  | [_], _ => by simp
  | _ :: _ :: _, h => by simp at h

theorem anthFrameStep_msgStart (p : Int) (hp : 0 < p) (u : Option UsageInfo) :
    anthFrameStep (msgStartBody p) u = ([], some ⟨p, 0, 0⟩) := by
  simp [anthFrameStep, msgStartBody, hp]

theorem anthFrameStep_msgDelta (o : Int) (ho : 0 < o) (u : UsageInfo) :
    anthFrameStep (msgDeltaBody o) (some u)
      = ([usageEvent ⟨u.promptTokens, o, u.promptTokens + o⟩],
         some ⟨u.promptTokens, o, u.promptTokens + o⟩) := by
  simp [anthFrameStep, msgDeltaBody, ho]

theorem anth_delta_run (outs : List Int) (u : UsageInfo) (h : ∀ o ∈ outs, 0 < o) :
    anthProcess (outs.map msgDeltaFrame ++ [AnthFrameData.done]) (some u)
      = ((outs.map fun o => usageEvent ⟨u.promptTokens, o, u.promptTokens + o⟩)
          ++ [usageEvent (anthFinal u outs)], none) := by
  induction outs generalizing u with
  | nil => simp [anthProcess, anthFinal]
  | cons o rest ih =>
      have ho : 0 < o := h o (by simp)
      have hrest : ∀ x ∈ rest, 0 < x := fun x hx => h x (by simp [hx])
      simp only [List.map_cons, List.cons_append, msgDeltaFrame, anthProcess,
        anthFrameStep_msgDelta o ho u, anthFinal, List.append_eq]
      rw [ih ⟨u.promptTokens, o, u.promptTokens + o⟩ hrest]
      simp

theorem anth_chain (outs : List Int) (u : UsageInfo) (hchain : outs.Chain' (· ≤ ·)) :
    List.Chain' usageLE
      ((outs.map fun o => (⟨u.promptTokens, o, u.promptTokens + o⟩ : UsageInfo))
        ++ [anthFinal u outs]) := by
  induction outs generalizing u with
  | nil =>
      simp only [List.map_nil, List.nil_append]
      exact List.chain'_singleton (anthFinal u [])
  | cons o rest ih =>
      have hrest : rest.Chain' (· ≤ ·) := (List.chain'_cons'.mp hchain).2
      have htail := ih ⟨u.promptTokens, o, u.promptTokens + o⟩ hrest
      simp only [List.map_cons, List.cons_append, anthFinal]
      refine List.chain'_cons'.mpr ⟨?_, htail⟩
      intro y hy
      cases rest with
      | nil =>
          simp [anthFinal] at hy
          subst hy
          exact ⟨le_refl _, le_refl _, le_refl _⟩
      | cons o2 rest2 =>
          simp at hy
          subst hy
          have ho2 : o ≤ o2 := (List.chain'_cons.mp hchain).1
          exact ⟨le_refl _, ho2, by simpa using add_le_add_left ho2 u.promptTokens⟩

/-! ## Claim theorems -/

/-- C1 (counterexample). The claim that stream events are always delivered
to the caller with none dropped is false: once the OpenRouter producer has
finished, its buffered response channel still holds the scripted events
while both channels are already closed, and the bridge's select may observe
the closed error channel (schedule `[false, false, true]`) and return nil
before draining the buffer, so the caller observes only `Content("a")`,
`Content("b")` and never the `FinishReason("stop")`. -/
theorem bridge_drop_counterexample :
    bridgeDrain [contentEvent "a", contentEvent "b", finishEvent "stop"] [false, false, true]
        = [contentEvent "a", contentEvent "b"]
    ∧ bridgeDrain [contentEvent "a", contentEvent "b", finishEvent "stop"] [false, false, true]
        ≠ [contentEvent "a", contentEvent "b", finishEvent "stop"] := by
  exact ⟨by decide, by decide⟩

/-- C1 (amended). Delivery preserves emission order exactly, with no
reordering or batching: the bridge forwards a received event immediately,
so the delivered sequence is always a prefix (`take k`) of the emitted
sequence, and when the bridge drains the event channel before acting on
the closed error channel every event is delivered — in particular the
scripted upstream `[Content("a"), Content("b"), FinishReason("stop")]`
normalizes to exactly those three events and is observed in that exact
order. Only the terminal select race against the closed error channel can
truncate the tail. -/
theorem bridge_order_amended :
    (∀ (es : List LLMStreamResponse),
        bridgeRun (es.map (fun e => BridgeInput.item e true) ++ [BridgeInput.respClosed])
          = (es, some BridgeResult.success))
    ∧ (∀ (q : List LLMStreamResponse) (oracle : List Bool),
        ∃ k, bridgeDrain q oracle = q.take k)
    ∧ (orProcess orderFrames none).1
        = [contentEvent "a", contentEvent "b", finishEvent "stop"]
    ∧ bridgeDrain [contentEvent "a", contentEvent "b", finishEvent "stop"] []
        = [contentEvent "a", contentEvent "b", finishEvent "stop"] := by
  exact ⟨bridgeRun_items, bridgeDrain_take, by decide, by decide⟩

/-- C2 (counterexample). Usage monotonicity is not enforced by the code: a
vendor stream whose `message_delta` frames report 5 then 3 output tokens
makes the Anthropic adapter emit `Usage` snapshots whose completion and
total token counts regress (1029 to 1027, 5 to 3), so the claimed
no-regression property fails. -/
theorem usage_regress_counterexample :
    usageSnapshots (anthProcess [msgDeltaFrame 5, msgDeltaFrame 3] none).1
        = [⟨1024, 5, 1029⟩, ⟨1024, 3, 1027⟩]
    ∧ ¬ (usageSnapshots (anthProcess [msgDeltaFrame 5, msgDeltaFrame 3] none).1).Pairwise
        usageNoRegress := by
  exact ⟨by decide, by decide⟩

/-- C2 (amended). Usage monotonicity holds whenever the vendor's own
cumulative reports are monotone: for an Anthropic stream consisting of one
`message_start` reporting positive input tokens followed by `message_delta`
frames whose positive output-token reports are non-decreasing, no field of
any emitted `Usage` snapshot regresses; the OpenRouter adapter emits at
most one `Usage` event per invocation, so the property holds there for
every stream. -/
theorem usage_monotone_amended :
    (∀ (p : Int) (outs : List Int), 0 < p → (∀ o ∈ outs, 0 < o) →
        outs.Chain' (· ≤ ·) →
        (usageSnapshots
            (anthProcess (msgStartFrame p :: (outs.map msgDeltaFrame ++ [AnthFrameData.done]))
              none).1).Pairwise usageNoRegress)
    ∧ (∀ (frames : List ORFrameData) (u : Option ORUsage),
        (usageSnapshots (orProcess frames u).1).Pairwise usageNoRegress) := by
  constructor
  · intro p outs hp hpos hchain
    have hfst : (anthProcess
          (msgStartFrame p :: (outs.map msgDeltaFrame ++ [AnthFrameData.done])) none).1
        = (anthProcess (outs.map msgDeltaFrame ++ [AnthFrameData.done]) (some ⟨p, 0, 0⟩)).1 := by
      simp [anthProcess, msgStartFrame, anthFrameStep_msgStart p hp none]
    rw [hfst, anth_delta_run outs ⟨p, 0, 0⟩ hpos]
    have hmap : (outs.map fun o =>
          usageEvent ⟨(⟨p, 0, 0⟩ : UsageInfo).promptTokens, o,
            (⟨p, 0, 0⟩ : UsageInfo).promptTokens + o⟩)
        = (outs.map fun o => (⟨p, o, p + o⟩ : UsageInfo)).map usageEvent := by
      simp [List.map_map]
    rw [hmap, usageSnapshots_append, usageSnapshots_usageEvent_map]
    have hsingle : usageSnapshots [usageEvent (anthFinal ⟨p, 0, 0⟩ outs)]
        = [anthFinal ⟨p, 0, 0⟩ outs] := by
      simp [usageSnapshots, usageEvent]
    rw [hsingle]
    have hch := anth_chain outs ⟨p, 0, 0⟩ hchain
    have hpw : ((outs.map fun o => (⟨p, o, p + o⟩ : UsageInfo))
        ++ [anthFinal ⟨p, 0, 0⟩ outs]).Pairwise usageLE :=
      List.chain'_iff_pairwise.mp hch
    exact hpw.imp (fun hle => ⟨fun _ => hle.1, fun _ => hle.2.1, fun _ => hle.2.2⟩)
  · intro frames u
    exact pairwise_of_len_le_one _ (usageSnapshots_orProcess_len frames u)

/-- C2 witness: the amended monotonicity evaluated on the concrete stream
`message_start(5); message_delta(2); message_delta(3); [DONE]`. -/
theorem usage_monotone_amended_witness :
    (usageSnapshots
        (anthProcess (msgStartFrame 5 :: ([2, 3].map msgDeltaFrame ++ [AnthFrameData.done]))
          none).1).Pairwise usageNoRegress :=
  usage_monotone_amended.1 5 [2, 3] (by decide) (by decide)
    (List.chain'_cons.mpr ⟨by norm_num, List.chain'_singleton _⟩)

/-- C3. An unregistered provider id makes both `Invoke` and `InvokeStream`
fail with the `unsupported provider` error and perform zero network calls
(the registry lookup runs first, before the adapter is touched), and the
lookup is exact-match: it succeeds precisely for the ids that are keys of
the registry map. -/
theorem unknown_provider_first (providers : List (String × ProviderModel))
    (req : LLMRequest) (h : req.provider ∉ providers.map Prod.fst) :
    serverInvoke providers req
        = ⟨none, some ("unsupported provider: " ++ req.provider), 0⟩
    ∧ serverInvokeStream providers req
        = ([], some (ServerStreamError.unsupportedProvider
            ("unsupported provider: " ++ req.provider)), 0)
    ∧ (∀ name, (∃ p, getProvider providers name = Except.ok p)
        ↔ name ∈ providers.map Prod.fst) := by
  have hl := lookup_eq_none_of_not_mem h
  exact ⟨by simp [serverInvoke, getProvider, hl],
    by simp [serverInvokeStream, getProvider, hl],
    fun name => getProvider_ok_iff providers name⟩

/-- C3 witness: a registry holding only `"test"` rejects provider
`"unknown"` on both operations with zero network calls. -/
theorem unknown_provider_first_witness :
    serverInvoke [("test", stubProvider)] reqUnknown
        = ⟨none, some ("unsupported provider: " ++ "unknown"), 0⟩
    ∧ serverInvokeStream [("test", stubProvider)] reqUnknown
        = ([], some (ServerStreamError.unsupportedProvider
            ("unsupported provider: " ++ "unknown")), 0) := by
  have h := unknown_provider_first [("test", stubProvider)] reqUnknown (by decide)
  exact ⟨h.1, h.2.1⟩

/-- C4. The Anthropic producer at the failing input: the upstream answers
200 and sends one `content_block_delta` frame, and the caller's context is
canceled right after the headers, so the bridge performs zero further
receives. The producer then blocks forever in the plain send on its
unbuffered response channel (no select on `ctx.Done()`), its deferred
`close` calls never run, and neither channel is closed — contradicting the
claim that cancellation closes both channels in bounded time. -/
theorem anthropic_cancel_blocks :
    anthInvokeStreamB (HTTPAttempt.response ⟨200, "",
        [AnthFrameData.body ⟨"content_block_delta", [], ⟨"text_delta", "hello"⟩, 0, none⟩]⟩) 0
      = ⟨[], none, false, false⟩ := by decide

/-- C5. A non-2xx initial response makes both streaming adapters abort
before any event: the delivered event list is empty and exactly one error,
carrying the status code and the response body, appears on the error
channel (which is closed along with the event channel). -/
theorem non2xx_aborts (status : Int) (respBody : String) (orf : List ORFrameData)
    (anf : List AnthFrameData) (cancelAt : Option Nat) (budget : Nat)
    (h : ¬(200 ≤ status ∧ status ≤ 299)) :
    orInvokeStream (HTTPAttempt.response ⟨status, respBody, orf⟩) cancelAt
        = ⟨[], some (ProviderError.httpStatus status respBody), true, true⟩
    ∧ anthInvokeStreamB (HTTPAttempt.response ⟨status, respBody, anf⟩) budget
        = ⟨[], some (ProviderError.httpStatus status respBody), true, true⟩ := by
  have hne : status ≠ 200 := by
    intro he
    exact h (by constructor <;> omega)
  exact ⟨by simp [orInvokeStream, hne], by simp [anthInvokeStreamB, hne]⟩

/-- C5 witness: a 404 with body `"Invalid request"` aborts both adapters
with the single status-carrying error. -/
theorem non2xx_aborts_witness :
    orInvokeStream (HTTPAttempt.response ⟨404, "Invalid request", []⟩) none
        = ⟨[], some (ProviderError.httpStatus 404 "Invalid request"), true, true⟩
    ∧ anthInvokeStreamB (HTTPAttempt.response ⟨404, "Invalid request", []⟩) 0
        = ⟨[], some (ProviderError.httpStatus 404 "Invalid request"), true, true⟩ :=
  non2xx_aborts 404 "Invalid request" [] [] none 0 (by decide)

/-- C6 (counterexample). The Anthropic adapter emits a `Content` event even
for an empty `text_delta`: a `content_block_delta` frame whose delta text
is `""` produces exactly one `Content` event carrying `""`, so the claim
that no `Content` event is emitted for an empty text delta fails. -/
theorem empty_delta_content_counterexample :
    contentTexts (anthProcess
        [AnthFrameData.body ⟨"content_block_delta", [], ⟨"text_delta", ""⟩, 0, none⟩]
        none).1 = [""] := by decide

/-- C6 (amended). Every text delta becomes exactly one `Content` event
carrying the delta text verbatim, in frame order with no re-chunking or
coalescing (the events of a processed stream are the concatenation of the
per-frame events); the OpenRouter adapter emits no `Content` event for an
empty delta, but the Anthropic adapter emits the `Content` event for a
`text_delta` even when its text is empty. -/
theorem verbatim_delta_amended :
    (∀ (bs : List ORStreamBody) (u : Option ORUsage),
        (orProcess (bs.map ORFrameData.body) u).1 = bs.flatMap orFrameEvents)
    ∧ (∀ (role d fr : String) (rest : List ORChoice) (bu : Option ORUsage),
        contentTexts (orFrameEvents ⟨⟨⟨role, d⟩, fr⟩ :: rest, bu⟩)
          = if d = "" then [] else [d])
    ∧ (∀ (t : String) (u : Option UsageInfo),
        contentTexts (anthFrameStep ⟨"content_block_delta", [], ⟨"text_delta", t⟩, 0, none⟩ u).1
          = [t]) := by
  refine ⟨orProcess_map_body, ?_, ?_⟩
  · intro role d fr rest bu
    by_cases hd : d = ""
    · subst hd
      simp [orFrameEvents, orChoiceEvents, contentTexts, finishEvent, contentEvent]
    · simp only [orFrameEvents, orChoiceEvents, contentTexts]
      split_ifs <;> simp_all [finishEvent, contentEvent]
  · intro t u
    simp [anthFrameStep, contentTexts, contentEvent]

/-- C7 (counterexample). The Anthropic adapter emits two consecutive
`Usage` events carrying the identical snapshot: the `message_delta` emits
`⟨5, 3, 8⟩` and the `[DONE]` sentinel re-emits the unchanged snapshot, so
the claim that a `Usage` event is emitted only when the snapshot changes
fails. -/
theorem duplicate_usage_counterexample :
    ¬ (usageSnapshots
        (anthProcess [msgStartFrame 5, msgDeltaFrame 3, AnthFrameData.done] none).1).Chain'
      (fun a b => a ≠ b) := by
  have h : usageSnapshots
      (anthProcess [msgStartFrame 5, msgDeltaFrame 3, AnthFrameData.done] none).1
      = [⟨5, 3, 8⟩, ⟨5, 3, 8⟩] := by decide
  rw [h]
  intro hch
  exact (List.chain'_cons.mp hch).1 rfl

/-- C7 (amended). The OpenRouter adapter emits at most one `Usage` event
per invocation (so no two consecutive snapshots can repeat there), while
the Anthropic adapter emits a `Usage` event at every `message_delta`
carrying positive output tokens and re-emits the final snapshot at the
`[DONE]` sentinel without change detection, so its terminal `Usage` event
duplicates the preceding one. -/
theorem usage_emission_amended :
    (∀ (frames : List ORFrameData) (u : Option ORUsage),
        (usageSnapshots (orProcess frames u).1).length ≤ 1)
    ∧ (∀ (p o : Int), 0 < p → 0 < o →
        anthProcess [msgStartFrame p, msgDeltaFrame o, AnthFrameData.done] none
          = ([usageEvent ⟨p, o, p + o⟩, usageEvent ⟨p, o, p + o⟩], none)) := by
  refine ⟨usageSnapshots_orProcess_len, ?_⟩
  intro p o hp ho
  have h1 := anthFrameStep_msgStart p hp none
  have h2 := anthFrameStep_msgDelta o ho ⟨p, 0, 0⟩
  simp [anthProcess, msgStartFrame, msgDeltaFrame, h1, h2]

/-- C7 witness: the amended emission pattern evaluated at
`message_start(5); message_delta(3); [DONE]`. -/
theorem usage_emission_amended_witness :
    anthProcess [msgStartFrame 5, msgDeltaFrame 3, AnthFrameData.done] none
        = ([usageEvent ⟨5, 3, 8⟩, usageEvent ⟨5, 3, 8⟩], none) :=
  usage_emission_amended.2 5 3 (by decide) (by decide)

/-- C8 (counterexample). The OpenRouter adapter copies the upstream
`total_tokens` verbatim instead of summing: against a scripted upstream
returning content `"Hi"` and usage `{prompt: 5, completion: 2}` (the
absent total unmarshals to 0), `Invoke` yields total 0, not the claimed
5 + 2 = 7. -/
theorem total_tokens_counterexample :
    orInvoke (SyncUpstream.ok ⟨[⟨"assistant", "Hi", "stop"⟩], ⟨5, 2, 0⟩⟩)
        = Except.ok ⟨"Hi", some ⟨5, 2, 0⟩⟩
    ∧ (0 : Int) ≠ 5 + 2 := by
  exact ⟨rfl, by decide⟩

/-- C8 (amended). The round trip with `messages=[{role:"user",
content:"Hello"}]` against the scripted upstream yields content `"Hi"`;
the Anthropic adapter computes `total_tokens` as the sum 5 + 2 = 7, while
the OpenRouter adapter copies the upstream usage, total included,
verbatim — its total is 7 exactly when the upstream itself reports 7. -/
theorem round_trip_amended :
    orChatMessages ⟨"openrouter", "m", [⟨"user", "Hello"⟩], 0, 0, 0, 0, none⟩
        = [⟨"user", "Hello"⟩]
    ∧ anthInvoke (SyncUpstream.ok ⟨[⟨"text", "Hi"⟩], 5, 2⟩)
        = Except.ok ⟨"Hi", some ⟨5, 2, 7⟩⟩
    ∧ (∀ t : Int, orInvoke (SyncUpstream.ok ⟨[⟨"assistant", "Hi", "stop"⟩], ⟨5, 2, t⟩⟩)
        = Except.ok ⟨"Hi", some ⟨5, 2, t⟩⟩) := by
  exact ⟨rfl, rfl, fun _ => rfl⟩

/-- C9. Every OpenRouter streaming invocation runs under the 60-second
deadline created inside `InvokeStream`: whatever the caller's own deadline,
the effective deadline is at most call time plus 60 seconds, and the HTTP
client built for the streaming request carries a 60-second timeout as
well. -/
theorem stream_deadline_bound :
    (∀ (callerDeadline : Option Nat) (now : Nat),
        orStreamDeadline callerDeadline now ≤ now + 60)
    ∧ orStreamTimeoutSeconds = 60 ∧ orStreamClientTimeoutSeconds = 60 := by
  refine ⟨?_, rfl, rfl⟩
  intro cd now
  cases cd with
  | none => simp [orStreamDeadline, withTimeoutDeadline, orStreamTimeoutSeconds]
  | some d =>
      simp only [orStreamDeadline, withTimeoutDeadline, orStreamTimeoutSeconds]
      exact min_le_right _ _

/-- C10. A `message_delta` reporting positive output tokens while no
`message_start` has reported input tokens (the snapshot is still `none`)
makes the Anthropic adapter fabricate `PromptTokens: 1024`: the emitted
`Usage` event carries prompt 1024 and total 1024 plus the reported output
tokens, both at the single step and through the whole stream loop. -/
theorem prompt_fallback_1024 (o : Int) (ho : 0 < o) :
    anthFrameStep (msgDeltaBody o) none
        = ([usageEvent ⟨1024, o, 1024 + o⟩], some ⟨1024, o, 1024 + o⟩)
    ∧ (anthProcess [msgDeltaFrame o] none).1 = [usageEvent ⟨1024, o, 1024 + o⟩] := by
  have hstep : anthFrameStep (msgDeltaBody o) none
      = ([usageEvent ⟨1024, o, 1024 + o⟩], some ⟨1024, o, 1024 + o⟩) := by
    simp [anthFrameStep, msgDeltaBody, ho]
  exact ⟨hstep, by simp [anthProcess, msgDeltaFrame, hstep]⟩

/-- C10 witness: the 1024 fallback evaluated at a `message_delta`
reporting 7 output tokens. -/
theorem prompt_fallback_1024_witness :
    anthFrameStep (msgDeltaBody 7) none
        = ([usageEvent ⟨1024, 7, 1031⟩], some ⟨1024, 7, 1031⟩)
    ∧ (anthProcess [msgDeltaFrame 7] none).1 = [usageEvent ⟨1024, 7, 1031⟩] :=
  prompt_fallback_1024 7 (by decide)

end LLMService
